import Mathlib

/-!
Shallow embedding of `openmdao.lib/src/openmdao/lib/drivers/conmindriver.py`
(class `CONMINdriver`), the adapter that drives the Fortran CONMIN kernel.

Python floats are modelled as rationals (`Val := Rat`); the driver only
copies these values around, it performs no arithmetic on them, so the
embedding is exact at the level the claims speak about.  numarray arrays
are modelled as Lean lists, 2-d arrays as lists of lists.  The CONMIN
kernel itself (`conmin.conmin`) is an opaque collaborator and is modelled
as an arbitrary deterministic function from its inputs (the two common
blocks plus the positional arrays) to its outputs.
-/

/-- Scalar numeric values handled by the driver (Python floats), modelled as
rationals; the driver only copies them, never computes with them. -/
abbrev Val := Rat

/-- Model of `numarray.zeros(n, 'd')`. -/
def zerosD (n : Nat) : List Val := List.replicate n 0

/-- Model of `numarray.zeros(n, 'i')`. -/
def zerosI (n : Nat) : List Int := List.replicate n 0

/-- Model of `numarray.ones(n, 'd')`. -/
def onesD (n : Nat) : List Val := List.replicate n 1

/-- Model of `numarray.zeros((r, c), 'd')`, a zero matrix. -/
def zeros2 (r c : Nat) : List (List Val) :=
  List.replicate r (List.replicate c 0)

/-- Model of the element-assignment loop
`for i, v in enumerate(vals): base[i] = v`: the first `vals.length`
entries of `base` are overwritten with `vals`, the rest kept. -/
def copyInto (base vals : List Val) : List Val :=
  vals.take base.length ++ base.drop vals.length

/-- The Python float literal `-1.e99` / `1.e99` used as the "unbounded"
sentinel for missing bound arrays. -/
def bigBound : Val := 10 ^ 99

/-- The Python float literal `1.e-8` assigned to `cnmn1.dabfun`. -/
def dabfunDefault : Val := 1 / 10 ^ 8

/-- The `CNMN1` common block of the CONMIN kernel (`conmin.cnmn1`): the
fields the driver reads or writes by name, plus one `hidden` field
standing for all remaining kernel-internal fields, which the driver only
ever copies wholesale in `_load_common_blocks`/`_save_common_blocks`. -/
structure Cnmn1 where
  ndv : Nat
  ncon : Nat
  nside : Nat
  nacmx1 : Nat
  igoto : Nat
  info : Nat
  iter : Nat
  nac : Nat
  obj : Val
  infog : Int
  nfdg : Int
  icndir : Int
  nscal : Int
  linobj : Int
  itrm : Int
  iprint : Int
  itmax : Int
  fdch : Val
  fdchm : Val
  ct : Val
  ctmin : Val
  ctlmin : Val
  theta : Val
  phi : Val
  delfun : Val
  dabfun : Val
  alphax : Val
  abobj1 : Val
  ctl : Val
  hidden : Int
deriving DecidableEq

/-- The `CONSAV` common block of the CONMIN kernel (`conmin.consav`): the
temp variables that let the optimization be stepped externally.  The named
fields are exactly the ones `_config_conmin` resets; `hidden` stands for
any further kernel-internal fields, copied only wholesale. -/
structure Consav where
  dm1 : Val
  dm2 : Val
  dm3 : Val
  dm4 : Val
  dm5 : Val
  dm6 : Val
  dm7 : Val
  dm8 : Val
  dm9 : Val
  dm10 : Val
  dm11 : Val
  dm12 : Val
  dct : Val
  dctl : Val
  phi : Val
  abobj : Val
  cta : Val
  ctam : Val
  ctbm : Val
  obj1 : Val
  slope : Val
  dx : Val
  dx1 : Val
  fi : Val
  xi : Val
  dftdf1 : Val
  alp : Val
  fff : Val
  a1 : Val
  a2 : Val
  a3 : Val
  a4 : Val
  f1 : Val
  f2 : Val
  f3 : Val
  f4 : Val
  cv1 : Val
  cv2 : Val
  cv3 : Val
  cv4 : Val
  app : Val
  alpca : Val
  alpfes : Val
  alpln : Val
  alpmin : Val
  alpnc : Val
  alpsav : Val
  alpsid : Val
  alptot : Val
  rspace : Val
  idm1 : Int
  idm2 : Int
  idm3 : Int
  jdir : Int
  iobj : Int
  kobj : Int
  kcount : Int
  nfeas : Int
  mscal : Int
  ncobj : Int
  nvc : Int
  kount : Int
  icount : Int
  igood1 : Int
  igood2 : Int
  igood3 : Int
  igood4 : Int
  ibest : Int
  iii : Int
  nlnc : Int
  jgoto : Int
  ncal : List Int
  ispace : List Int
  hidden : Int
deriving DecidableEq

/-- The process-wide global state of the CONMIN kernel: its two common
blocks `conmin.cnmn1` and `conmin.consav`. -/
structure Global where
  cnmn1 : Cnmn1
  consav : Consav
deriving DecidableEq

/-- Instance state of one `CONMINdriver` object.  `numDv` is
`len(self.design_vars)` (the number of design-variable references),
`numCon` is `len(self.constraints)`, `hasObjective` is the test
`self.objective.value is not None`.  `cnmn1`/`consav` are the per-instance
snapshots of the two common blocks; the remaining fields are the working
arrays of the same names in the Python source. -/
structure Driver where
  first : Bool
  numDv : Nat
  numCon : Nat
  hasObjective : Bool
  iprint : Int
  maxiters : Int
  lower_bounds : List Val
  upper_bounds : List Val
  cnmn1 : Cnmn1
  consav : Consav
  design_vals : List Val
  _lower_bounds : List Val
  _upper_bounds : List Val
  constraint_vals : List Val
  scal : List Val
  df : List Val
  s : List Val
  g1 : List Val
  g2 : List Val
  _c : List Val
  gradients : List (List Val)
  _b : List (List Val)
  cons_is_linear : List Int
  cons_active_or_violated : List Int
  _ms1 : List Int
deriving DecidableEq

/-- The collaborator computation graph, reduced to what the driver needs:
the current values of the design-variable references (`dvVals`, read by
`self.design_vars.refvalue` and written by assigning to it), and the
objective and constraint expressions as functions of those values
(fetching them triggers upstream re-evaluation). -/
structure Graph where
  dvVals : List Val
  objF : List Val → Val
  consF : List Val → List Val

/-- Model of `_load_common_blocks`: write this instance's snapshot of the
two common blocks into the kernel's global storage, wholesale. -/
def loadCommonBlocks (d : Driver) : Global :=
  { cnmn1 := d.cnmn1, consav := d.consav }

/-- Model of `_save_common_blocks`: copy the kernel's global common blocks
into this instance's snapshot, wholesale. -/
def saveCommonBlocks (d : Driver) (glob : Global) : Driver :=
  { d with cnmn1 := glob.cnmn1, consav := glob.consav }

/-- The fatal configuration errors `_config_conmin` can raise
(`RuntimeError` for the first two, `ValueError` for the bound
mismatches). -/
inductive ConfigError
  | noDesignVars
  | noObjective
  | lowerBoundMismatch
  | upperBoundMismatch
deriving DecidableEq

/-- The state updates `_config_conmin` performs when none of its
validation checks fires: sizing of all working arrays and reset of the
kernel configuration scalars and of the whole `CONSAV` block.  Note that
`nacmx1` is computed from `conmin.cnmn1.nside` — the nside field of the
kernel's GLOBAL block (`glob`), exactly as in the source — not from the
`nside` value derived just above it, which is stored into the instance
snapshot `self.cnmn1`. -/
def configBody (d : Driver) (glob : Global) : Driver :=
  let num_dvs := d.numDv
  let design_vals := zerosD (num_dvs + 2)
  let lbw :=
    if 0 < d.lower_bounds.length then
      copyInto (zerosD (d.lower_bounds.length + 2)) d.lower_bounds
    else
      List.replicate num_dvs (-bigBound) ++ [0, 0]
  let ubw :=
    if 0 < d.upper_bounds.length then
      copyInto (zerosD (d.upper_bounds.length + 2)) d.upper_bounds
    else
      List.replicate num_dvs bigBound ++ [0, 0]
  let len := d.numCon + 2 * num_dvs
  let nside := if lbw.length ≠ 0 ∨ ubw.length ≠ 0 then 2 * num_dvs else 0
  let nacmx1 := max num_dvs (d.numCon + glob.cnmn1.nside) + 1
  let n1 := num_dvs + 2
  let n3 := nacmx1
  let n4 := max n3 num_dvs
  let n5 := 2 * n4
  let cnmn1 : Cnmn1 :=
    { d.cnmn1 with
      ndv := num_dvs, ncon := d.numCon, nside := nside, nacmx1 := nacmx1
      infog := 0, info := 0, nfdg := 0, icndir := 0, nscal := 0
      fdch := 0, fdchm := 0, ct := 0, ctmin := 0, ctlmin := 0
      theta := 0, phi := 0, delfun := 0, dabfun := dabfunDefault
      linobj := 0, itrm := 0, alphax := 0, abobj1 := 0, ctl := 0
      igoto := 0, nac := 0, iter := 0
      iprint := d.iprint, itmax := d.maxiters }
  let consav : Consav :=
    { dm1 := 0, dm2 := 0, dm3 := 0, dm4 := 0, dm5 := 0, dm6 := 0
      dm7 := 0, dm8 := 0, dm9 := 0, dm10 := 0, dm11 := 0, dm12 := 0
      dct := 0, dctl := 0, phi := 0, abobj := 0, cta := 0, ctam := 0
      ctbm := 0, obj1 := 0, slope := 0, dx := 0, dx1 := 0, fi := 0
      xi := 0, dftdf1 := 0, alp := 0, fff := 0, a1 := 0, a2 := 0
      a3 := 0, a4 := 0, f1 := 0, f2 := 0, f3 := 0, f4 := 0
      cv1 := 0, cv2 := 0, cv3 := 0, cv4 := 0, app := 0, alpca := 0
      alpfes := 0, alpln := 0, alpmin := 0, alpnc := 0, alpsav := 0
      alpsid := 0, alptot := 0, rspace := 0
      idm1 := 0, idm2 := 0, idm3 := 0, jdir := 0, iobj := 0, kobj := 0
      kcount := 0, nfeas := 0, mscal := 0, ncobj := 0, nvc := 0
      kount := 0, icount := 0, igood1 := 0, igood2 := 0, igood3 := 0
      igood4 := 0, ibest := 0, iii := 0, nlnc := 0, jgoto := 0
      ncal := [0, 0], ispace := [0, 0], hidden := d.consav.hidden }
  { d with
    cnmn1 := cnmn1
    consav := consav
    design_vals := design_vals
    _lower_bounds := lbw
    _upper_bounds := ubw
    constraint_vals := zerosD len
    g1 := zerosD len
    g2 := zerosD len
    cons_is_linear := zerosI len
    scal := onesD (num_dvs + 2)
    df := zerosD (num_dvs + 2)
    s := zerosD (num_dvs + 2)
    cons_active_or_violated := zerosI n3
    gradients := zeros2 n1 n3
    _b := zeros2 n3 n3
    _c := zerosD n4
    _ms1 := zerosI n5 }

/-- Model of `_config_conmin`: the validation checks, in source order,
followed by the sizing/reset updates of `configBody`.  A raised exception
is modelled as `Except.error`; the partial mutations that precede a raise
in the Python source are unobservable through the claims and are
discarded. -/
def _config_conmin (d : Driver) (glob : Global) : Except ConfigError Driver :=
  if d.numDv < 1 then .error .noDesignVars
  else if d.hasObjective = false then .error .noObjective
  else if 0 < d.lower_bounds.length ∧ d.lower_bounds.length ≠ d.numDv then
    .error .lowerBoundMismatch
  else if 0 < d.upper_bounds.length ∧ d.upper_bounds.length ≠ d.numDv then
    .error .upperBoundMismatch
  else .ok (configBody d glob)

/-- Positional inputs of one call to the kernel entry point
`conmin.conmin(design_vals, _lower_bounds, _upper_bounds, constraint_vals,
scal, df, gradients, s, g1, g2, _b, _c, cons_is_linear,
cons_active_or_violated, _ms1)`, together with the kernel's global common
blocks, which the Fortran routine reads. -/
structure KernelIn where
  glob : Global
  x : List Val
  vlb : List Val
  vub : List Val
  g : List Val
  scal : List Val
  df : List Val
  a : List (List Val)
  s : List Val
  g1 : List Val
  g2 : List Val
  b : List (List Val)
  c : List Val
  isc : List Int
  ic : List Int
  ms1 : List Int

/-- Outputs of one kernel call: the tuple of arrays `conmin.conmin`
returns (assigned back to the same driver attributes) plus the mutated
global common blocks. -/
structure KernelOut where
  glob : Global
  x : List Val
  scal : List Val
  a : List (List Val)
  s : List Val
  g1 : List Val
  g2 : List Val
  b : List (List Val)
  c : List Val
  isc : List Int
  ic : List Int
  ms1 : List Int

/-- The opaque CONMIN kernel, modelled as an arbitrary deterministic
function of its inputs. -/
abbrev Kernel := KernelIn → KernelOut

/-- Observable events of one `execute()` run against the collaborator
graph and the kernel: reading `design_vars.refvalue`, reading
`objective.refvalue`, reading `constraints.refvalue`, one kernel call,
and writing `design_vars.refvalue`. -/
inductive Ev
  | fetchDV
  | fetchObj
  | fetchCons
  | kernelCall
  | writeDV (xs : List Val)
deriving DecidableEq

/-- How one call to `execute()` terminates: normal return, a raised
configuration error, the `RunStopped` exception, the
`NotImplementedError` for user-defined gradients, or exhaustion of the
fuel bounding the (possibly non-terminating) Python `while` loop. -/
inductive Outcome
  | done
  | configError (e : ConfigError)
  | stopped
  | gradientError
  | outOfFuel
deriving DecidableEq

/-- Full result of one modelled `execute()` call. -/
structure ExecResult where
  outcome : Outcome
  driver : Driver
  glob : Global
  graph : Graph
  trace : List Ev

/-- The driver-state updates at the top of each loop iteration, before the
kernel call: clear `_first`, fetch the objective value into
`self.cnmn1.obj`. -/
def stepDriver (d : Driver) (graph : Graph) : Driver :=
  let d1 := { d with first := false }
  { d1 with cnmn1 := { d1.cnmn1 with obj := graph.objF graph.dvVals } }

/-- The input of the kernel call made in one loop iteration: the global
blocks just loaded from the instance snapshot by `_load_common_blocks`,
and the driver's working arrays in positional order. -/
def stepInput (d : Driver) (graph : Graph) : KernelIn :=
  let d2 := stepDriver d graph
  { glob := loadCommonBlocks d2
    x := d2.design_vals
    vlb := d2._lower_bounds
    vub := d2._upper_bounds
    g := d2.constraint_vals
    scal := d2.scal
    df := d2.df
    a := d2.gradients
    s := d2.s
    g1 := d2.g1
    g2 := d2.g2
    b := d2._b
    c := d2._c
    isc := d2.cons_is_linear
    ic := d2.cons_active_or_violated
    ms1 := d2._ms1 }

/-- Combined effect of one loop iteration up to and including the
write-back of the design variables: load common blocks, call the kernel,
reassign the returned arrays, save common blocks, and assign
`design_vars.refvalue = design_vals[:-2]`. -/
structure StepOut where
  driver : Driver
  glob : Global
  graph : Graph

/-- One kernel step of the `execute` loop: `_load_common_blocks`, the
`conmin.conmin` call, reassignment of the returned arrays,
`_save_common_blocks`, and the design-variable write-back into the
collaborator graph. -/
def stepResult (k : Kernel) (d : Driver) (graph : Graph) : StepOut :=
  let d2 := stepDriver d graph
  let out := k (stepInput d graph)
  let d3 := { d2 with
    design_vals := out.x
    scal := out.scal
    gradients := out.a
    s := out.s
    g1 := out.g1
    g2 := out.g2
    _b := out.b
    _c := out.c
    cons_is_linear := out.isc
    cons_active_or_violated := out.ic
    _ms1 := out.ms1 }
  let d4 := saveCommonBlocks d3 out.glob
  { driver := d4
    glob := out.glob
    graph := { graph with dvVals := out.x.dropLast.dropLast } }

/-- The `while self.cnmn1.igoto or self._first is True` loop of
`execute`, with a fuel bound standing in for the unbounded Python loop.
`i` is the loop-iteration index used to poll the externally-set `_stop`
flag (modelled as the schedule `stop : Nat → Bool`).  The loop-exit test
needs no fuel; each executed body consumes one unit. -/
def executeLoop (k : Kernel) (stop : Nat → Bool) :
    Nat → Nat → Driver → Global → Graph → List Ev → ExecResult
  | 0, _, d, glob, graph, tr =>
    if d.cnmn1.igoto ≠ 0 ∨ d.first = true then ⟨.outOfFuel, d, glob, graph, tr⟩
    else ⟨.done, d, glob, graph, tr⟩
  | fuel + 1, i, d, glob, graph, tr =>
    if d.cnmn1.igoto ≠ 0 ∨ d.first = true then
      if stop i = true then ⟨.stopped, d, glob, graph, tr⟩
      else
        let st := stepResult k d graph
        let tr2 := tr ++ [Ev.fetchObj, Ev.kernelCall, Ev.writeDV st.graph.dvVals]
        if st.driver.cnmn1.info = 1 then
          let d5 := { st.driver with
            constraint_vals :=
              copyInto st.driver.constraint_vals (st.graph.consF st.graph.dvVals) }
          executeLoop k stop fuel (i + 1) d5 st.glob st.graph (tr2 ++ [Ev.fetchCons])
        else if st.driver.cnmn1.info = 2 then
          ⟨.gradientError, st.driver, st.glob, st.graph, tr2⟩
        else
          executeLoop k stop fuel (i + 1) st.driver st.glob st.graph tr2
    else ⟨.done, d, glob, graph, tr⟩

/-- Model of `CONMINdriver.execute`: run `_config_conmin` when `_first`
is set (a raised configuration error propagates), zero `igoto`, fetch the
design-variable reference values into `design_vals`, then run the resume
loop. -/
def execute (k : Kernel) (stop : Nat → Bool) (fuel : Nat)
    (d : Driver) (glob : Global) (graph : Graph) : ExecResult :=
  match (if d.first then _config_conmin d glob else .ok d) with
  | .error e => ⟨.configError e, d, glob, graph, []⟩
  | .ok d1 =>
    let d2 := { d1 with cnmn1 := { d1.cnmn1 with igoto := 0 } }
    let d3 := { d2 with design_vals := copyInto d2.design_vals graph.dvVals }
    executeLoop k stop fuel 0 d3 glob graph [Ev.fetchDV]

/-- Model of `CONMINdriver._pre_execute`: recompute `_first` as the
negation of the conjunction of the validity flags of the five watched
references (`objective`, `constraints`, `design_vars`, `upper_bounds`,
`lower_bounds`). -/
def _pre_execute (d : Driver)
    (objectiveValid constraintsValid designVarsValid upperValid lowerValid : Bool) :
    Driver :=
  { d with first :=
      !(objectiveValid && constraintsValid && designVarsValid && upperValid && lowerValid) }

/-- The all-zero `CNMN1` block: the kernel global state of a fresh
process before any driver has loaded its snapshot. -/
def zeroCnmn1 : Cnmn1 :=
  { ndv := 0, ncon := 0, nside := 0, nacmx1 := 0, igoto := 0, info := 0
    iter := 0, nac := 0, obj := 0, infog := 0, nfdg := 0, icndir := 0
    nscal := 0, linobj := 0, itrm := 0, iprint := 0, itmax := 0
    fdch := 0, fdchm := 0, ct := 0, ctmin := 0, ctlmin := 0, theta := 0
    phi := 0, delfun := 0, dabfun := 0, alphax := 0, abobj1 := 0, ctl := 0
    hidden := 0 }

/-- The all-zero `CONSAV` block. -/
def zeroConsav : Consav :=
  { dm1 := 0, dm2 := 0, dm3 := 0, dm4 := 0, dm5 := 0, dm6 := 0
    dm7 := 0, dm8 := 0, dm9 := 0, dm10 := 0, dm11 := 0, dm12 := 0
    dct := 0, dctl := 0, phi := 0, abobj := 0, cta := 0, ctam := 0
    ctbm := 0, obj1 := 0, slope := 0, dx := 0, dx1 := 0, fi := 0
    xi := 0, dftdf1 := 0, alp := 0, fff := 0, a1 := 0, a2 := 0
    a3 := 0, a4 := 0, f1 := 0, f2 := 0, f3 := 0, f4 := 0
    cv1 := 0, cv2 := 0, cv3 := 0, cv4 := 0, app := 0, alpca := 0
    alpfes := 0, alpln := 0, alpmin := 0, alpnc := 0, alpsav := 0
    alpsid := 0, alptot := 0, rspace := 0
    idm1 := 0, idm2 := 0, idm3 := 0, jdir := 0, iobj := 0, kobj := 0
    kcount := 0, nfeas := 0, mscal := 0, ncobj := 0, nvc := 0
    kount := 0, icount := 0, igood1 := 0, igood2 := 0, igood3 := 0
    igood4 := 0, ibest := 0, iii := 0, nlnc := 0, jgoto := 0
    ncal := [0, 0], ispace := [0, 0], hidden := 0 }

/-- Fresh kernel global state. -/
def glob0 : Global := { cnmn1 := zeroCnmn1, consav := zeroConsav }

/-- A `CONMINdriver` as `__init__` leaves it: `_first` set, the small
default working arrays of `__init__`, the instance snapshot holding
whatever the kernel global state was at construction time
(`_save_common_blocks` is called from `__init__`), and the given problem
configuration assigned by the host.  The working arrays that only come
into existence in `_config_conmin` start as empty lists. -/
def initDriver (glob : Global) (numDv numCon : Nat) (hasObj : Bool)
    (lower upper : List Val) : Driver :=
  { first := true, numDv := numDv, numCon := numCon, hasObjective := hasObj
    iprint := 0, maxiters := 40
    lower_bounds := lower, upper_bounds := upper
    cnmn1 := glob.cnmn1, consav := glob.consav
    design_vals := zerosD 0
    _lower_bounds := zerosD 0, _upper_bounds := zerosD 0
    constraint_vals := zerosD 0
    scal := onesD 2, df := zerosD 2, s := zerosD 2
    g1 := zerosD 0, g2 := zerosD 0
    _c := zerosD 1, gradients := zeros2 2 1, _b := zeros2 1 1
    cons_is_linear := zerosI 0, cons_active_or_violated := zerosI 0
    _ms1 := zerosI 2 }

/-- A never-set cancellation signal. -/
def noStop : Nat → Bool := fun _ => false

/-- A cancellation signal raised after the first kernel call and before
the second: the polled `_stop` flag is `false` at loop iteration 0 and
`true` at loop iteration 1. -/
def stopAfterFirst : Nat → Bool := fun i => i == 1

/-- Scripted kernel stub: it counts its calls in the `iter` field of the
`CNMN1` block (so the count round-trips through the snapshot save/load),
answers with continuation code `igoto = 1` and info code `1` ("need
constraint values") on its first `kmax` calls, then `igoto = 0` and
`info = 0` ("complete"); all arrays are returned unchanged. -/
def scriptKernel (kmax : Nat) : Kernel := fun inp =>
  let cnt := inp.glob.cnmn1.iter
  { glob := { inp.glob with cnmn1 :=
      { inp.glob.cnmn1 with
        iter := cnt + 1
        igoto := if cnt < kmax then 1 else 0
        info := if cnt < kmax then 1 else 0 } }
    x := inp.x, scal := inp.scal, a := inp.a, s := inp.s, g1 := inp.g1
    g2 := inp.g2, b := inp.b, c := inp.c, isc := inp.isc, ic := inp.ic
    ms1 := inp.ms1 }

/-- Kernel stub that always requests user-supplied analytic gradients
(`info = 2`) after its first step. -/
def gradKernel : Kernel := fun inp =>
  { glob := { inp.glob with cnmn1 := { inp.glob.cnmn1 with igoto := 1, info := 2 } }
    x := inp.x, scal := inp.scal, a := inp.a, s := inp.s, g1 := inp.g1
    g2 := inp.g2, b := inp.b, c := inp.c, isc := inp.isc, ic := inp.ic
    ms1 := inp.ms1 }

/-- Event classifiers used to count graph interactions in a trace. -/
def isKernelCall : Ev → Bool
  | .kernelCall => true
  | _ => false

/-- Tests for the constraint-fetch event. -/
def isFetchCons : Ev → Bool
  | .fetchCons => true
  | _ => false

/-- Tests for the objective-fetch event. -/
def isFetchObj : Ev → Bool
  | .fetchObj => true
  | _ => false

/-- Tests for the design-variable-fetch event. -/
def isFetchDV : Ev → Bool
  | .fetchDV => true
  | _ => false

/-- Tests for the design-variable write-back event. -/
def isWriteDV : Ev → Bool
  | .writeDV _ => true
  | _ => false

/-- A small concrete collaborator graph with two design variables,
objective `x0 + x1` and one constraint `x0 + x1 - 5`. -/
def graphC : Graph :=
  { dvVals := [1, 2]
    objF := fun xs => xs.foldr (· + ·) 0
    consF := fun xs => [xs.foldr (· + ·) 0 - 5] }

/-- A second concrete graph (for a second driver instance B). -/
def graphB : Graph :=
  { dvVals := [7]
    objF := fun xs => xs.foldr (· + ·) 0
    consF := fun _ => [] }

/-- Concrete driver: 2 design variables, 1 constraint, objective set, no
bound arrays supplied. -/
def c3driver : Driver := initDriver glob0 2 1 true [] []

/-- Concrete driver for the sizing counterexample: 1 design variable, no
constraints, no bounds. -/
def c4driver : Driver := initDriver glob0 1 0 true [] []

/-- Concrete driver with 3 design variables and no bounds. -/
def c5driver : Driver := initDriver glob0 3 0 true [] []

/-- Concrete mis-configured driver: 3 design variables but a 2-element
lower-bound array. -/
def c6driver : Driver := initDriver glob0 3 0 true [0, 0] []

/-- A second driver instance (B) with one design variable. -/
def bdriver : Driver := initDriver glob0 1 0 true [] []

/-- Length is preserved by the element-assignment loop. -/
theorem copyInto_length (base vals : List Val) :
    (copyInto base vals).length = base.length := by
  simp [copyInto]
  omega

/-- Copying an array of length `n` into a fresh zero array of length
`n + 2` yields the array followed by two zero slots. -/
theorem copyInto_zeros_append (vals : List Val) :
    copyInto (zerosD (vals.length + 2)) vals = vals ++ [0, 0] := by
  unfold copyInto zerosD
  rw [List.length_replicate, List.take_of_length_le (by omega),
    List.drop_replicate]
  norm_num
  rfl

/-- Successful sizing characterized: the result is `configBody`, and the
validation conditions all passed. -/
theorem config_ok {d : Driver} {glob : Global} {d1 : Driver}
    (h : _config_conmin d glob = .ok d1) :
    d1 = configBody d glob ∧ 1 ≤ d.numDv ∧ d.hasObjective = true ∧
      (0 < d.lower_bounds.length → d.lower_bounds.length = d.numDv) ∧
      (0 < d.upper_bounds.length → d.upper_bounds.length = d.numDv) := by
  unfold _config_conmin at h
  split_ifs at h with h1 h2 h3 h4
  all_goals cases h
  refine ⟨rfl, by omega, ?_, ?_, ?_⟩
  · revert h2; cases d.hasObjective <;> simp
  · intro hl; by_contra hne; exact h3 ⟨hl, hne⟩
  · intro hu; by_contra hne; exact h4 ⟨hu, hne⟩

/-- Projection: the gradient matrix allocated by sizing. -/
theorem configBody_gradients (d : Driver) (glob : Global) :
    (configBody d glob).gradients =
      zeros2 (d.numDv + 2) (max d.numDv (d.numCon + glob.cnmn1.nside) + 1) := rfl

/-- Projection: the square scratch matrix `_b` allocated by sizing. -/
theorem configBody_b (d : Driver) (glob : Global) :
    (configBody d glob)._b =
      zeros2 (max d.numDv (d.numCon + glob.cnmn1.nside) + 1)
        (max d.numDv (d.numCon + glob.cnmn1.nside) + 1) := rfl

/-- Projection: the linear scratch vector `_c` allocated by sizing. -/
theorem configBody_c (d : Driver) (glob : Global) :
    (configBody d glob)._c =
      zerosD (max (max d.numDv (d.numCon + glob.cnmn1.nside) + 1) d.numDv) := rfl

/-- Projection: the integer index-scratch vector `_ms1` allocated by sizing. -/
theorem configBody_ms1 (d : Driver) (glob : Global) :
    (configBody d glob)._ms1 =
      zerosI (2 * max (max d.numDv (d.numCon + glob.cnmn1.nside) + 1) d.numDv) := rfl

/-- Projection: the active/violated-constraint index array allocated by sizing. -/
theorem configBody_ic (d : Driver) (glob : Global) :
    (configBody d glob).cons_active_or_violated =
      zerosI (max d.numDv (d.numCon + glob.cnmn1.nside) + 1) := rfl

/-- Projection: `nacmx1` as stored in the instance snapshot by sizing; it is
computed from the `nside` currently in the kernel GLOBAL block. -/
theorem configBody_nacmx1 (d : Driver) (glob : Global) :
    (configBody d glob).cnmn1.nacmx1 =
      max d.numDv (d.numCon + glob.cnmn1.nside) + 1 := rfl

/-- Projection: the working lower-bound array built by sizing. -/
theorem configBody_lower (d : Driver) (glob : Global) :
    (configBody d glob)._lower_bounds =
      if 0 < d.lower_bounds.length then
        copyInto (zerosD (d.lower_bounds.length + 2)) d.lower_bounds
      else
        List.replicate d.numDv (-bigBound) ++ [0, 0] := rfl

/-- Projection: the working upper-bound array built by sizing. -/
theorem configBody_upper (d : Driver) (glob : Global) :
    (configBody d glob)._upper_bounds =
      if 0 < d.upper_bounds.length then
        copyInto (zerosD (d.upper_bounds.length + 2)) d.upper_bounds
      else
        List.replicate d.numDv bigBound ++ [0, 0] := rfl

/-- Projection: the `nside` stored in the instance snapshot by sizing, as a
function of the freshly built working bound arrays. -/
theorem configBody_nside_if (d : Driver) (glob : Global) :
    (configBody d glob).cnmn1.nside =
      if (configBody d glob)._lower_bounds.length ≠ 0 ∨
          (configBody d glob)._upper_bounds.length ≠ 0 then
        2 * d.numDv
      else 0 := rfl

/-- Projection: sizing zeroes `igoto` and `iter` in the instance snapshot. -/
theorem configBody_igoto (d : Driver) (glob : Global) :
    (configBody d glob).cnmn1.igoto = 0 := rfl

/-- Projection: sizing zeroes the kernel iteration counter. -/
theorem configBody_iter (d : Driver) (glob : Global) :
    (configBody d glob).cnmn1.iter = 0 := rfl

/-- Projection: sizing does not touch the `_first` flag. -/
theorem configBody_first (d : Driver) (glob : Global) :
    (configBody d glob).first = d.first := rfl

/-- C4, amended: after sizing with `n` design variables and `m` declared
constraints, the gradient matrix is `(n+2) × cap`, the integer
index-scratch vector has length `2×max(cap, n)`, the square scratch
matrix is `cap × cap` and the linear scratch vector has length
`max(cap, n)` — but with `cap = max(n, m + side_g) + 1` where `side_g`
is the `nside` currently in the kernel GLOBAL common block when sizing
runs (the source reads `conmin.cnmn1.nside`), not the side-constraint
count `2n` derived and stored into the instance snapshot during that
same sizing. -/
theorem c4_sizing_shapes (d : Driver) (glob : Global) (d1 : Driver)
    (h : _config_conmin d glob = .ok d1) :
    d1.gradients.length = d.numDv + 2 ∧
    (∀ row ∈ d1.gradients,
      row.length = max d.numDv (d.numCon + glob.cnmn1.nside) + 1) ∧
    d1._ms1.length =
      2 * max (max d.numDv (d.numCon + glob.cnmn1.nside) + 1) d.numDv ∧
    d1._b.length = max d.numDv (d.numCon + glob.cnmn1.nside) + 1 ∧
    (∀ row ∈ d1._b,
      row.length = max d.numDv (d.numCon + glob.cnmn1.nside) + 1) ∧
    d1._c.length = max (max d.numDv (d.numCon + glob.cnmn1.nside) + 1) d.numDv ∧
    d1.cnmn1.nacmx1 = max d.numDv (d.numCon + glob.cnmn1.nside) + 1 := by
  obtain ⟨rfl, -, -, -, -⟩ := config_ok h
  refine ⟨?_, ?_, ?_, ?_, ?_, ?_, configBody_nacmx1 d glob⟩
  · rw [configBody_gradients]; simp [zeros2]
  · rw [configBody_gradients]
    intro row hrow
    rw [List.eq_of_mem_replicate hrow]
    simp
  · rw [configBody_ms1]; simp [zerosI]
  · rw [configBody_b]; simp [zeros2]
  · rw [configBody_b]
    intro row hrow
    rw [List.eq_of_mem_replicate hrow]
    simp
  · rw [configBody_c]; simp [zerosD]

/-- C4, counterexample to the claim as stated: with one design variable,
zero constraints and a fresh kernel global state (`nside = 0` there),
sizing derives an instance-snapshot side-constraint count of `2`, yet the
allocated gradient rows have length `2 = max(1, 0 + 0) + 1`, not
`max(1, 0 + 2) + 1 = 3` as the claim's `cap` (computed from the `side`
derived during that same sizing) requires. -/
theorem c4_counterexample :
    _config_conmin c4driver glob0 = .ok (configBody c4driver glob0) ∧
    (configBody c4driver glob0).cnmn1.nside = 2 ∧
    (∀ row ∈ (configBody c4driver glob0).gradients, row.length = 2) ∧
    2 ≠ max c4driver.numDv
        (c4driver.numCon + (configBody c4driver glob0).cnmn1.nside) + 1 := by
  refine ⟨rfl, by decide, ?_, by decide⟩
  decide

/-- C4 witness: a successful concrete sizing to which the amended shape
theorem applies. -/
theorem c4_witness :
    _config_conmin c4driver glob0 = .ok (configBody c4driver glob0) ∧
    (configBody c4driver glob0).gradients.length = c4driver.numDv + 2 := by
  exact ⟨rfl, (c4_sizing_shapes c4driver glob0 _ rfl).1⟩

/-- The resume loop exits with a normal return when the continuation code
is zero and `_first` is clear, whatever fuel remains. -/
theorem executeLoop_exit (k : Kernel) (stop : Nat → Bool) (fuel i : Nat)
    (d : Driver) (glob : Global) (graph : Graph) (tr : List Ev)
    (h : ¬(d.cnmn1.igoto ≠ 0 ∨ d.first = true)) :
    executeLoop k stop fuel i d glob graph tr = ⟨.done, d, glob, graph, tr⟩ := by
  cases fuel with
  | zero => rw [executeLoop, if_neg h]
  | succ f => rw [executeLoop, if_neg h]

/-- Fuel exhaustion while the loop would continue. -/
theorem executeLoop_zero (k : Kernel) (stop : Nat → Bool) (i : Nat)
    (d : Driver) (glob : Global) (graph : Graph) (tr : List Ev)
    (h : d.cnmn1.igoto ≠ 0 ∨ d.first = true) :
    executeLoop k stop 0 i d glob graph tr = ⟨.outOfFuel, d, glob, graph, tr⟩ := by
  rw [executeLoop, if_pos h]

/-- The polled cancellation check at the top of a loop iteration: if the
`_stop` flag is set, the run ends with `RunStopped` before anything else
happens in that iteration. -/
theorem executeLoop_stopped (k : Kernel) (stop : Nat → Bool) (fuel i : Nat)
    (d : Driver) (glob : Global) (graph : Graph) (tr : List Ev)
    (hcond : d.cnmn1.igoto ≠ 0 ∨ d.first = true) (hstop : stop i = true) :
    executeLoop k stop (fuel + 1) i d glob graph tr = ⟨.stopped, d, glob, graph, tr⟩ := by
  rw [executeLoop, if_pos hcond, if_pos hstop]

/-- One executed body of the resume loop, written without the local
`let` abbreviations. -/
theorem executeLoop_step (k : Kernel) (stop : Nat → Bool) (fuel i : Nat)
    (d : Driver) (glob : Global) (graph : Graph) (tr : List Ev)
    (hcond : d.cnmn1.igoto ≠ 0 ∨ d.first = true) (hstop : stop i = false) :
    executeLoop k stop (fuel + 1) i d glob graph tr =
      (if (stepResult k d graph).driver.cnmn1.info = 1 then
        executeLoop k stop fuel (i + 1)
          { (stepResult k d graph).driver with
            constraint_vals :=
              copyInto (stepResult k d graph).driver.constraint_vals
                ((stepResult k d graph).graph.consF (stepResult k d graph).graph.dvVals) }
          (stepResult k d graph).glob (stepResult k d graph).graph
          ((tr ++ [Ev.fetchObj, Ev.kernelCall, Ev.writeDV (stepResult k d graph).graph.dvVals])
            ++ [Ev.fetchCons])
      else if (stepResult k d graph).driver.cnmn1.info = 2 then
        ⟨.gradientError, (stepResult k d graph).driver, (stepResult k d graph).glob,
          (stepResult k d graph).graph,
          tr ++ [Ev.fetchObj, Ev.kernelCall, Ev.writeDV (stepResult k d graph).graph.dvVals]⟩
      else
        executeLoop k stop fuel (i + 1) (stepResult k d graph).driver
          (stepResult k d graph).glob (stepResult k d graph).graph
          (tr ++ [Ev.fetchObj, Ev.kernelCall, Ev.writeDV (stepResult k d graph).graph.dvVals])) := by
  rw [executeLoop, if_pos hcond, if_neg (by simp [hstop])]

/-- After one loop body, the instance snapshot of `CNMN1` is exactly what
the kernel call left in the global block (saved by
`_save_common_blocks`). -/
theorem stepResult_cnmn1 (k : Kernel) (d : Driver) (graph : Graph) :
    (stepResult k d graph).driver.cnmn1 = (k (stepInput d graph)).glob.cnmn1 := rfl

/-- One loop body clears the `_first` flag. -/
theorem stepResult_first (k : Kernel) (d : Driver) (graph : Graph) :
    (stepResult k d graph).driver.first = false := rfl

/-- One loop body reassigns `design_vals` to the array returned by the
kernel. -/
theorem stepResult_design_vals (k : Kernel) (d : Driver) (graph : Graph) :
    (stepResult k d graph).driver.design_vals = (k (stepInput d graph)).x := rfl

/-- One loop body writes `design_vals[:-2]` back into the
design-variable references of the collaborator graph. -/
theorem stepResult_graph (k : Kernel) (d : Driver) (graph : Graph) :
    (stepResult k d graph).graph =
      { graph with dvVals := (k (stepInput d graph)).x.dropLast.dropLast } := rfl

/-- A step of the scripted kernel, seen through the snapshot save: the
iteration counter advances and `igoto`/`info` follow the script. -/
theorem scriptStep_cnmn1 (kmax : Nat) (d : Driver) (graph : Graph) :
    (stepResult (scriptKernel kmax) d graph).driver.cnmn1 =
      { d.cnmn1 with
        obj := graph.objF graph.dvVals
        iter := d.cnmn1.iter + 1
        igoto := if d.cnmn1.iter < kmax then 1 else 0
        info := if d.cnmn1.iter < kmax then 1 else 0 } := rfl

/-- The scripted kernel returns the design-variable array unchanged. -/
theorem scriptStep_design_vals (kmax : Nat) (d : Driver) (graph : Graph) :
    (stepResult (scriptKernel kmax) d graph).driver.design_vals = d.design_vals := rfl

/-- C2, amended: if `execute()` is invoked again when all five watched
references are valid (`_pre_execute` clears `_first`), the run performs
no kernel calls at all: `igoto` is zeroed at entry, the resume loop body
is never entered, and the call only refreshes the working
design-variable array from the collaborator graph and returns normally —
it does not resume the optimization from the saved kernel state. -/
theorem c2_rerun_with_valid_refs_does_nothing (k : Kernel) (stop : Nat → Bool)
    (fuel : Nat) (d : Driver) (glob : Global) (graph : Graph) :
    execute k stop fuel (_pre_execute d true true true true true) glob graph =
      ⟨.done,
        { _pre_execute d true true true true true with
          cnmn1 := { d.cnmn1 with igoto := 0 }
          design_vals := copyInto d.design_vals graph.dvVals },
        glob, graph, [Ev.fetchDV]⟩ := by
  have h : ¬((0 : Nat) ≠ 0 ∨ false = true) := by simp
  show executeLoop k stop fuel 0 _ glob graph [Ev.fetchDV] = _
  exact executeLoop_exit k stop fuel 0 _ glob graph [Ev.fetchDV] h

/-- C2, counterexample to the claim as stated: a concrete driver holding
the snapshot of a partly advanced optimization (`iter = 3`, continuation
code `igoto = 1` saved in the instance snapshot), re-invoked while all
watched references are valid, against a kernel that would happily
continue — yet the run performs zero kernel calls, refuting "performs
further kernel calls continuing the saved progress". -/
theorem c2_counterexample :
    (execute (scriptKernel 5) noStop 9
        (_pre_execute
          { configBody c3driver glob0 with
            first := false
            cnmn1 := { (configBody c3driver glob0).cnmn1 with iter := 3, igoto := 1 } }
          true true true true true)
        glob0 graphC).trace.countP isKernelCall = 0 := by
  decide

/-- The A-visible components of the resume loop (outcome, driver
instance state, collaborator graph, trace) do not depend on the contents
of the kernel's global blocks at loop entry: the loop's only use of the
global storage is to overwrite it wholesale (`_load_common_blocks`)
before each kernel call. -/
theorem executeLoop_glob_indep (k : Kernel) (stop : Nat → Bool)
    (fuel i : Nat) (d : Driver) (g g' : Global) (graph : Graph) (tr : List Ev) :
    (executeLoop k stop fuel i d g graph tr).outcome =
      (executeLoop k stop fuel i d g' graph tr).outcome ∧
    (executeLoop k stop fuel i d g graph tr).driver =
      (executeLoop k stop fuel i d g' graph tr).driver ∧
    (executeLoop k stop fuel i d g graph tr).graph =
      (executeLoop k stop fuel i d g' graph tr).graph ∧
    (executeLoop k stop fuel i d g graph tr).trace =
      (executeLoop k stop fuel i d g' graph tr).trace := by
  by_cases hcond : d.cnmn1.igoto ≠ 0 ∨ d.first = true
  · cases fuel with
    | zero =>
      rw [executeLoop_zero k stop i d g graph tr hcond,
        executeLoop_zero k stop i d g' graph tr hcond]
      exact ⟨rfl, rfl, rfl, rfl⟩
    | succ f =>
      by_cases hstop : stop i = true
      · rw [executeLoop_stopped k stop f i d g graph tr hcond hstop,
          executeLoop_stopped k stop f i d g' graph tr hcond hstop]
        exact ⟨rfl, rfl, rfl, rfl⟩
      · have hstop' : stop i = false := by revert hstop; cases stop i <;> simp
        rw [executeLoop_step k stop f i d g graph tr hcond hstop',
          executeLoop_step k stop f i d g' graph tr hcond hstop']
        exact ⟨rfl, rfl, rfl, rfl⟩
  · rw [executeLoop_exit k stop fuel i d g graph tr hcond,
      executeLoop_exit k stop fuel i d g' graph tr hcond]
    exact ⟨rfl, rfl, rfl, rfl⟩

/-- When `_first` is clear, a whole `execute()` call is likewise
independent of the incoming kernel global state in all A-visible
components (when `_first` is set, sizing reads `conmin.cnmn1.nside` from
the global block, so the hypothesis is needed). -/
theorem execute_glob_indep (k : Kernel) (stop : Nat → Bool) (fuel : Nat)
    (d : Driver) (g g' : Global) (graph : Graph) (hfirst : d.first = false) :
    (execute k stop fuel d g graph).outcome =
      (execute k stop fuel d g' graph).outcome ∧
    (execute k stop fuel d g graph).driver =
      (execute k stop fuel d g' graph).driver ∧
    (execute k stop fuel d g graph).graph =
      (execute k stop fuel d g' graph).graph ∧
    (execute k stop fuel d g graph).trace =
      (execute k stop fuel d g' graph).trace := by
  unfold execute
  rw [hfirst]
  simp only [Bool.false_eq_true, if_false]
  exact executeLoop_glob_indep k stop fuel 0 _ g g' graph [Ev.fetchDV]

/-- C1: two driver instances A and B share the kernel's global common
blocks; provided A's first run left its `_first` flag clear (B cannot
touch A's instance snapshot, which lives in A's own object), the
interleaving `A.execute(); B.execute(); A.execute()` gives A the same
visible final state — outcome, instance state (snapshot and working
arrays), collaborator graph (the design-variable references A writes)
and trace — as `A.execute(); A.execute()` run in isolation. -/
theorem c1_snapshot_isolation (k kB : Kernel) (sA sB : Nat → Bool)
    (f1 fB f2 : Nat) (a b : Driver) (g0 : Global) (ga gb : Graph)
    (h : (execute k sA f1 a g0 ga).driver.first = false) :
    let r1 := execute k sA f1 a g0 ga
    let rB := execute kB sB fB b r1.glob gb
    let r2 := execute k sA f2 r1.driver rB.glob r1.graph
    let r2iso := execute k sA f2 r1.driver r1.glob r1.graph
    r2.outcome = r2iso.outcome ∧ r2.driver = r2iso.driver ∧
    r2.graph = r2iso.graph ∧ r2.trace = r2iso.trace := by
  intro r1 rB r2 r2iso
  exact execute_glob_indep k sA f2 r1.driver rB.glob r1.glob r1.graph h

/-- C1 witness: a concrete interleaved scenario.  A runs one kernel step
(clearing `_first`), B — a different instance with its own graph and
problem size — then runs and clobbers the kernel globals, and A runs
again; A's visible state matches the isolated rerun. -/
theorem c1_witness :
    ((execute (scriptKernel 0) noStop 3 c3driver glob0 graphC).driver.first = false) ∧
    (let r1 := execute (scriptKernel 0) noStop 3 c3driver glob0 graphC
     let rB := execute (scriptKernel 0) noStop 3 bdriver r1.glob graphB
     let r2 := execute (scriptKernel 0) noStop 3 r1.driver rB.glob r1.graph
     let r2iso := execute (scriptKernel 0) noStop 3 r1.driver r1.glob r1.graph
     r2.outcome = r2iso.outcome ∧ r2.driver = r2iso.driver ∧
     r2.graph = r2iso.graph ∧ r2.trace = r2iso.trace) :=
  ⟨by decide,
   c1_snapshot_isolation (scriptKernel 0) (scriptKernel 0) noStop noStop
     3 3 3 c3driver bdriver glob0 graphC graphB (by decide)⟩

/-- C5: after a successful sizing with `n` design variables, a supplied
bound array (length `n`) is copied into the working array followed by
exactly two trailing zero slots; a missing bound array is synthesized as
`n` copies of the sentinel `-1e99` (lower) or `1e99` (upper) followed by
two zero slots. -/
theorem c5_bound_working_arrays (d : Driver) (glob : Global) (d1 : Driver)
    (h : _config_conmin d glob = .ok d1) :
    (d.lower_bounds.length = d.numDv →
      d1._lower_bounds = d.lower_bounds ++ [0, 0]) ∧
    (d.lower_bounds = [] →
      d1._lower_bounds = List.replicate d.numDv (-bigBound) ++ [0, 0]) ∧
    (d.upper_bounds.length = d.numDv →
      d1._upper_bounds = d.upper_bounds ++ [0, 0]) ∧
    (d.upper_bounds = [] →
      d1._upper_bounds = List.replicate d.numDv bigBound ++ [0, 0]) := by
  obtain ⟨rfl, hn, -, -, -⟩ := config_ok h
  refine ⟨?_, ?_, ?_, ?_⟩
  · intro hl
    rw [configBody_lower, if_pos (by omega), copyInto_zeros_append]
  · intro hl
    rw [configBody_lower, if_neg (by simp [hl])]
  · intro hu
    rw [configBody_upper, if_pos (by omega), copyInto_zeros_append]
  · intro hu
    rw [configBody_upper, if_neg (by simp [hu])]

/-- C5 witness: for 3 design variables and no supplied bounds, the
synthesized working arrays are `[-1e99, -1e99, -1e99, 0, 0]` and
`[1e99, 1e99, 1e99, 0, 0]`. -/
theorem c5_witness :
    _config_conmin c5driver glob0 = .ok (configBody c5driver glob0) ∧
    (configBody c5driver glob0)._lower_bounds =
      List.replicate 3 (-bigBound) ++ [0, 0] ∧
    (configBody c5driver glob0)._upper_bounds =
      List.replicate 3 bigBound ++ [0, 0] :=
  ⟨rfl,
   (c5_bound_working_arrays c5driver glob0 _ rfl).2.1 rfl,
   (c5_bound_working_arrays c5driver glob0 _ rfl).2.2.2 rfl⟩

/-- C9: every successful sizing stores a side-constraint count of
exactly `2 × (design-variable count)` into the instance snapshot,
because the freshly built working bound arrays are never empty (each has
at least the two trailing slots), so the `nside = 0` branch of
`_config_conmin` is unreachable. -/
theorem c9_nside_always_two_n (d : Driver) (glob : Global) (d1 : Driver)
    (h : _config_conmin d glob = .ok d1) :
    d1.cnmn1.nside = 2 * d.numDv ∧
    d1._lower_bounds.length ≠ 0 ∧ d1._upper_bounds.length ≠ 0 := by
  obtain ⟨rfl, hn, -, -, -⟩ := config_ok h
  have hl : (configBody d glob)._lower_bounds.length ≠ 0 := by
    rw [configBody_lower]
    split
    · rw [copyInto_length]; simp [zerosD]
    · simp
  have hu : (configBody d glob)._upper_bounds.length ≠ 0 := by
    rw [configBody_upper]
    split
    · rw [copyInto_length]; simp [zerosD]
    · simp
  exact ⟨by rw [configBody_nside_if, if_pos (Or.inl hl)], hl, hu⟩

/-- C9 witness: a concrete sizing with 2 design variables and no
supplied bounds stores `nside = 4`. -/
theorem c9_witness :
    _config_conmin c3driver glob0 = .ok (configBody c3driver glob0) ∧
    (configBody c3driver glob0).cnmn1.nside = 2 * c3driver.numDv :=
  ⟨rfl, (c9_nside_always_two_n c3driver glob0 _ rfl).1⟩

/-- C6: if the configuration is invalid — fewer than one design
variable, no objective, or a supplied (non-empty) bound array whose
length differs from the design-variable count — then `execute()` on a
first run fails with a configuration error raised during sizing, before
any kernel call is made (the trace contains no kernel-call event). -/
theorem c6_config_error_before_any_kernel_call (k : Kernel) (stop : Nat → Bool)
    (fuel : Nat) (d : Driver) (glob : Global) (graph : Graph)
    (hfirst : d.first = true)
    (hbad : d.numDv < 1 ∨ d.hasObjective = false ∨
        (d.lower_bounds ≠ [] ∧ d.lower_bounds.length ≠ d.numDv) ∨
        (d.upper_bounds ≠ [] ∧ d.upper_bounds.length ≠ d.numDv)) :
    (∃ e, (execute k stop fuel d glob graph).outcome = .configError e) ∧
    (execute k stop fuel d glob graph).trace.countP isKernelCall = 0 := by
  have herr : ∃ e, _config_conmin d glob = .error e := by
    unfold _config_conmin
    split_ifs with h1 h2 h3 h4
    · exact ⟨_, rfl⟩
    · exact ⟨_, rfl⟩
    · exact ⟨_, rfl⟩
    · exact ⟨_, rfl⟩
    · exfalso
      rcases hbad with hb | hb | ⟨hne, hlen⟩ | ⟨hne, hlen⟩
      · omega
      · exact h2 hb
      · exact h3 ⟨List.length_pos.mpr hne, hlen⟩
      · exact h4 ⟨List.length_pos.mpr hne, hlen⟩
  obtain ⟨e, he⟩ := herr
  refine ⟨⟨e, ?_⟩, ?_⟩ <;> simp [execute, hfirst, he]

/-- C6 witness: a 2-element lower-bound array supplied for 3 design
variables makes `execute()` fail before any kernel call. -/
theorem c6_witness :
    c6driver.first = true ∧
    c6driver.lower_bounds ≠ [] ∧ c6driver.lower_bounds.length ≠ c6driver.numDv ∧
    (∃ e, (execute (scriptKernel 5) noStop 9 c6driver glob0 graphC).outcome =
      .configError e) ∧
    (execute (scriptKernel 5) noStop 9 c6driver glob0 graphC).trace.countP
      isKernelCall = 0 := by
  refine ⟨by decide, by decide, by decide, ?_, ?_⟩
  · exact (c6_config_error_before_any_kernel_call (scriptKernel 5) noStop 9
      c6driver glob0 graphC (by decide) (Or.inr (Or.inr (Or.inl ⟨by decide, by decide⟩)))).1
  · exact (c6_config_error_before_any_kernel_call (scriptKernel 5) noStop 9
      c6driver glob0 graphC (by decide) (Or.inr (Or.inr (Or.inl ⟨by decide, by decide⟩)))).2

/-- Dispatch: `execute` when the (possibly skipped) sizing step yields an
error. -/
theorem execute_def_error (k : Kernel) (stop : Nat → Bool) (fuel : Nat)
    (d : Driver) (glob : Global) (graph : Graph) (e : ConfigError)
    (hc : (if d.first then _config_conmin d glob else Except.ok d) = .error e) :
    execute k stop fuel d glob graph = ⟨.configError e, d, glob, graph, []⟩ := by
  unfold execute
  rw [hc]

/-- Dispatch: `execute` when the (possibly skipped) sizing step yields a
driver state `d1`: zero `igoto`, refresh `design_vals` from the graph,
run the loop. -/
theorem execute_def_ok (k : Kernel) (stop : Nat → Bool) (fuel : Nat)
    (d : Driver) (glob : Global) (graph : Graph) (d1 : Driver)
    (hc : (if d.first then _config_conmin d glob else Except.ok d) = .ok d1) :
    execute k stop fuel d glob graph =
      executeLoop k stop fuel 0
        { d1 with
          cnmn1 := { d1.cnmn1 with igoto := 0 }
          design_vals := copyInto d1.design_vals graph.dvVals }
        glob graph [Ev.fetchDV] := by
  unfold execute
  rw [hc]

/-- Classifier for the events involved in claim C10: objective fetches
and kernel calls. -/
def isObjOrCall : Ev → Bool
  | .fetchObj => true
  | .kernelCall => true
  | _ => false

/-- In any run of the resume loop, the objective-fetch and kernel-call
events strictly alternate, starting with a fetch: each kernel call is
preceded by its own objective fetch in the same iteration. -/
theorem executeLoop_obj_before_call (k : Kernel) (stop : Nat → Bool) :
    ∀ fuel i d glob graph tr,
      ∃ m, (executeLoop k stop fuel i d glob graph tr).trace.filter isObjOrCall
        = tr.filter isObjOrCall ++
          (List.replicate m [Ev.fetchObj, Ev.kernelCall]).flatten := by
  intro fuel
  induction fuel with
  | zero =>
    intro i d glob graph tr
    refine ⟨0, ?_⟩
    by_cases hcond : d.cnmn1.igoto ≠ 0 ∨ d.first = true
    · rw [executeLoop_zero k stop i d glob graph tr hcond]; simp
    · rw [executeLoop_exit k stop 0 i d glob graph tr hcond]; simp
  | succ f ih =>
    intro i d glob graph tr
    by_cases hcond : d.cnmn1.igoto ≠ 0 ∨ d.first = true
    · by_cases hstop : stop i = true
      · refine ⟨0, ?_⟩
        rw [executeLoop_stopped k stop f i d glob graph tr hcond hstop]; simp
      · have hstop' : stop i = false := by revert hstop; cases stop i <;> simp
        rw [executeLoop_step k stop f i d glob graph tr hcond hstop']
        by_cases h1 : (stepResult k d graph).driver.cnmn1.info = 1
        · rw [if_pos h1]
          obtain ⟨m, hm⟩ := ih (i + 1) _ (stepResult k d graph).glob
            (stepResult k d graph).graph
            ((tr ++ [Ev.fetchObj, Ev.kernelCall,
              Ev.writeDV (stepResult k d graph).graph.dvVals]) ++ [Ev.fetchCons])
          refine ⟨m + 1, ?_⟩
          rw [hm]
          simp [List.filter_append, isObjOrCall, List.replicate_succ]
        · rw [if_neg h1]
          by_cases h2 : (stepResult k d graph).driver.cnmn1.info = 2
          · rw [if_pos h2]
            refine ⟨1, ?_⟩
            simp [List.filter_append, isObjOrCall]
          · rw [if_neg h2]
            obtain ⟨m, hm⟩ := ih (i + 1) (stepResult k d graph).driver
              (stepResult k d graph).glob (stepResult k d graph).graph
              (tr ++ [Ev.fetchObj, Ev.kernelCall,
                Ev.writeDV (stepResult k d graph).graph.dvVals])
            refine ⟨m + 1, ?_⟩
            rw [hm]
            simp [List.filter_append, isObjOrCall, List.replicate_succ]
    · refine ⟨0, ?_⟩
      rw [executeLoop_exit k stop (f + 1) i d glob graph tr hcond]; simp

/-- C10: in every `execute()` run, the objective expression is fetched
from the collaborator graph once per loop iteration, immediately before
the kernel call — also on iterations entered only to deliver constraint
values: the run's trace, restricted to objective fetches and kernel
calls, is an exact alternation `fetchObj, kernelCall, fetchObj,
kernelCall, …`. -/
theorem c10_objective_refetched_every_iteration (k : Kernel) (stop : Nat → Bool)
    (fuel : Nat) (d : Driver) (glob : Global) (graph : Graph) :
    ∃ m, (execute k stop fuel d glob graph).trace.filter isObjOrCall
      = (List.replicate m [Ev.fetchObj, Ev.kernelCall]).flatten := by
  cases hc : (if d.first then _config_conmin d glob else Except.ok d) with
  | error e =>
    rw [execute_def_error k stop fuel d glob graph e hc]
    exact ⟨0, by simp⟩
  | ok d1 =>
    rw [execute_def_ok k stop fuel d glob graph d1 hc]
    obtain ⟨m, hm⟩ := executeLoop_obj_before_call k stop fuel 0 _ glob graph [Ev.fetchDV]
    refine ⟨m, ?_⟩
    rw [hm]
    simp [isObjOrCall]

/-- If the kernel never answers with info code 2, the run never fails
with the unsupported-gradients error. -/
theorem executeLoop_grad_only_on_info2 (k : Kernel) (stop : Nat → Bool)
    (hk : ∀ inp, (k inp).glob.cnmn1.info ≠ 2) :
    ∀ fuel i d glob graph tr,
      (executeLoop k stop fuel i d glob graph tr).outcome ≠ .gradientError := by
  intro fuel
  induction fuel with
  | zero =>
    intro i d glob graph tr
    by_cases hcond : d.cnmn1.igoto ≠ 0 ∨ d.first = true
    · rw [executeLoop_zero k stop i d glob graph tr hcond]; simp
    · rw [executeLoop_exit k stop 0 i d glob graph tr hcond]; simp
  | succ f ih =>
    intro i d glob graph tr
    by_cases hcond : d.cnmn1.igoto ≠ 0 ∨ d.first = true
    · by_cases hstop : stop i = true
      · rw [executeLoop_stopped k stop f i d glob graph tr hcond hstop]; simp
      · have hstop' : stop i = false := by revert hstop; cases stop i <;> simp
        rw [executeLoop_step k stop f i d glob graph tr hcond hstop']
        by_cases h1 : (stepResult k d graph).driver.cnmn1.info = 1
        · rw [if_pos h1]; exact ih _ _ _ _ _
        · rw [if_neg h1]
          by_cases h2 : (stepResult k d graph).driver.cnmn1.info = 2
          · exfalso
            apply hk (stepInput d graph)
            rw [← stepResult_cnmn1 k d graph]
            exact h2
          · rw [if_neg h2]; exact ih _ _ _ _ _
    · rw [executeLoop_exit k stop (f + 1) i d glob graph tr hcond]; simp

/-- When the loop does fail with the unsupported-gradients error, it
does so at the very point the info code demanded it: the saved snapshot
holds `info = 2` and the trace ends right after that kernel call's
write-back, with no further events. -/
theorem executeLoop_grad_shape (k : Kernel) (stop : Nat → Bool) :
    ∀ fuel i d glob graph tr,
      (executeLoop k stop fuel i d glob graph tr).outcome = .gradientError →
      (executeLoop k stop fuel i d glob graph tr).driver.cnmn1.info = 2 ∧
      ∃ tr0 xs, (executeLoop k stop fuel i d glob graph tr).trace =
        tr0 ++ [Ev.fetchObj, Ev.kernelCall, Ev.writeDV xs] := by
  intro fuel
  induction fuel with
  | zero =>
    intro i d glob graph tr
    by_cases hcond : d.cnmn1.igoto ≠ 0 ∨ d.first = true
    · rw [executeLoop_zero k stop i d glob graph tr hcond]; simp
    · rw [executeLoop_exit k stop 0 i d glob graph tr hcond]; simp
  | succ f ih =>
    intro i d glob graph tr
    by_cases hcond : d.cnmn1.igoto ≠ 0 ∨ d.first = true
    · by_cases hstop : stop i = true
      · rw [executeLoop_stopped k stop f i d glob graph tr hcond hstop]; simp
      · have hstop' : stop i = false := by revert hstop; cases stop i <;> simp
        rw [executeLoop_step k stop f i d glob graph tr hcond hstop']
        by_cases h1 : (stepResult k d graph).driver.cnmn1.info = 1
        · rw [if_pos h1]; exact ih _ _ _ _ _
        · rw [if_neg h1]
          by_cases h2 : (stepResult k d graph).driver.cnmn1.info = 2
          · rw [if_pos h2]
            intro _
            exact ⟨h2, tr, (stepResult k d graph).graph.dvVals, rfl⟩
          · rw [if_neg h2]; exact ih _ _ _ _ _
    · rw [executeLoop_exit k stop (f + 1) i d glob graph tr hcond]; simp

/-- A mid-run driver state — `_first` already cleared, nonzero saved
continuation code, advanced iteration counter — used to exercise the
per-iteration gradient-request theorem away from the first loop
iteration. -/
def c8late : Driver :=
  { configBody c3driver glob0 with
    first := false
    cnmn1 := { (configBody c3driver glob0).cnmn1 with igoto := 1, iter := 4 } }

/-- C8: whenever a kernel call's info code comes back as 2 ("need
gradients"), `execute()` raises the `NotImplementedError` exactly at
that point.  First conjunct, the forward universal at per-iteration
granularity (covering every iteration of every run, not only the
first): from ANY loop state whose executed body's kernel call answers
`info = 2`, the loop returns the gradient-error outcome immediately —
the result is the raising iteration's state and the trace extends only
by that one call's events, so no retry and no further kernel calls.
Second conjunct: when the error outcome occurs, the saved snapshot
holds `info = 2` and the trace ends right after that call's
design-variable write-back.  Third conjunct: the error is never raised
when no kernel answer carries info code 2 — no other info code value
triggers it. -/
theorem c8_gradient_request_is_fatal (k : Kernel) (stop : Nat → Bool) (fuel : Nat)
    (d : Driver) (glob : Global) (graph : Graph) :
    (∀ fuel' i d' glob' graph' tr,
      (d'.cnmn1.igoto ≠ 0 ∨ d'.first = true) →
      stop i = false →
      (k (stepInput d' graph')).glob.cnmn1.info = 2 →
      executeLoop k stop (fuel' + 1) i d' glob' graph' tr =
        ⟨.gradientError, (stepResult k d' graph').driver,
          (stepResult k d' graph').glob, (stepResult k d' graph').graph,
          tr ++ [Ev.fetchObj, Ev.kernelCall,
            Ev.writeDV (stepResult k d' graph').graph.dvVals]⟩) ∧
    ((execute k stop fuel d glob graph).outcome = .gradientError →
      (execute k stop fuel d glob graph).driver.cnmn1.info = 2 ∧
      ∃ tr0 xs, (execute k stop fuel d glob graph).trace =
        tr0 ++ [Ev.fetchObj, Ev.kernelCall, Ev.writeDV xs]) ∧
    ((∀ inp, (k inp).glob.cnmn1.info ≠ 2) →
      (execute k stop fuel d glob graph).outcome ≠ .gradientError) := by
  refine ⟨?_, ?_⟩
  · intro fuel' i d' glob' graph' tr hcond hstop hinfo
    rw [executeLoop_step k stop fuel' i d' glob' graph' tr hcond hstop]
    have h2 : (stepResult k d' graph').driver.cnmn1.info = 2 := by
      rw [stepResult_cnmn1]; exact hinfo
    have h1 : ¬((stepResult k d' graph').driver.cnmn1.info = 1) := by
      rw [stepResult_cnmn1, hinfo]; omega
    rw [if_neg h1, if_pos h2]
  cases hc : (if d.first then _config_conmin d glob else Except.ok d) with
  | error e =>
    rw [execute_def_error k stop fuel d glob graph e hc]
    exact ⟨by simp, by simp⟩
  | ok d1 =>
    rw [execute_def_ok k stop fuel d glob graph d1 hc]
    exact ⟨executeLoop_grad_shape k stop fuel 0 _ glob graph [Ev.fetchDV],
      fun hk => executeLoop_grad_only_on_info2 k stop hk fuel 0 _ glob graph [Ev.fetchDV]⟩

/-- C8 witness: a kernel that answers info code 2 makes the concrete run
fail with the gradients error right at that call; the per-iteration
universal fires at a concrete LATER loop iteration (mid-run state
`c8late`, iteration index 7) and stops the loop right there; and the
scripted kernel (which never answers 2) never triggers the error. -/
theorem c8_witness :
    ((execute gradKernel noStop 3 c3driver glob0 graphC).outcome = .gradientError) ∧
    (execute gradKernel noStop 3 c3driver glob0 graphC).driver.cnmn1.info = 2 ∧
    (∃ tr0 xs, (execute gradKernel noStop 3 c3driver glob0 graphC).trace =
      tr0 ++ [Ev.fetchObj, Ev.kernelCall, Ev.writeDV xs]) ∧
    (executeLoop gradKernel noStop 6 7 c8late glob0 graphC [Ev.fetchDV] =
      ⟨.gradientError, (stepResult gradKernel c8late graphC).driver,
        (stepResult gradKernel c8late graphC).glob,
        (stepResult gradKernel c8late graphC).graph,
        [Ev.fetchDV] ++ [Ev.fetchObj, Ev.kernelCall,
          Ev.writeDV (stepResult gradKernel c8late graphC).graph.dvVals]⟩) ∧
    (execute (scriptKernel 0) noStop 3 c3driver glob0 graphC).outcome ≠
      .gradientError := by
  have h1 := (c8_gradient_request_is_fatal gradKernel noStop 3 c3driver glob0
    graphC).2.1 (by decide)
  refine ⟨by decide, h1.1, h1.2, ?_, ?_⟩
  · exact (c8_gradient_request_is_fatal gradKernel noStop 3 c3driver glob0
      graphC).1 5 7 c8late glob0 graphC [Ev.fetchDV] (by decide) rfl (by decide)
  · exact (c8_gradient_request_is_fatal (scriptKernel 0) noStop 3 c3driver glob0
      graphC).2.2 (fun inp => by simp [scriptKernel])

/-- Scripted-kernel run of the resume loop: entered with the script
counter at `cnt ≤ kmax` and enough fuel, the loop terminates normally
after `kmax - cnt + 1` further kernel calls, with one objective fetch
and one design-variable write-back per kernel call, one constraint fetch
per "need constraints" answer, and no design-variable fetches. -/
theorem scriptLoop_counts (kmax : Nat) :
    ∀ fuel cnt i d glob graph tr,
      d.cnmn1.iter = cnt → cnt ≤ kmax →
      (d.cnmn1.igoto ≠ 0 ∨ d.first = true) →
      kmax - cnt < fuel →
      (executeLoop (scriptKernel kmax) noStop fuel i d glob graph tr).outcome
          = .done ∧
      (executeLoop (scriptKernel kmax) noStop fuel i d glob graph tr).trace.countP
          isKernelCall = tr.countP isKernelCall + (kmax - cnt) + 1 ∧
      (executeLoop (scriptKernel kmax) noStop fuel i d glob graph tr).trace.countP
          isFetchCons = tr.countP isFetchCons + (kmax - cnt) ∧
      (executeLoop (scriptKernel kmax) noStop fuel i d glob graph tr).trace.countP
          isFetchObj = tr.countP isFetchObj + (kmax - cnt) + 1 ∧
      (executeLoop (scriptKernel kmax) noStop fuel i d glob graph tr).trace.countP
          isFetchDV = tr.countP isFetchDV ∧
      (executeLoop (scriptKernel kmax) noStop fuel i d glob graph tr).trace.countP
          isWriteDV = tr.countP isWriteDV + (kmax - cnt) + 1 := by
  intro fuel
  induction fuel with
  | zero =>
    intro cnt i d glob graph tr hiter hle hcond hfuel
    omega
  | succ f ih =>
    intro cnt i d glob graph tr hiter hle hcond hfuel
    rw [executeLoop_step (scriptKernel kmax) noStop f i d glob graph tr hcond rfl]
    set st := stepResult (scriptKernel kmax) d graph with hst
    have hcnm : st.driver.cnmn1 =
        { d.cnmn1 with
          obj := graph.objF graph.dvVals
          iter := d.cnmn1.iter + 1
          igoto := if d.cnmn1.iter < kmax then 1 else 0
          info := if d.cnmn1.iter < kmax then 1 else 0 } := by
      rw [hst]; exact scriptStep_cnmn1 kmax d graph
    by_cases hlt : cnt < kmax
    · have h1 : st.driver.cnmn1.info = 1 := by
        rw [hcnm]; simp [hiter, hlt]
      rw [if_pos h1]
      have hd5 : ({ st.driver with
          constraint_vals :=
            copyInto st.driver.constraint_vals
              (st.graph.consF st.graph.dvVals) } : Driver).cnmn1 =
          st.driver.cnmn1 := rfl
      obtain ⟨hdone, hkc, hfc, hfo, hdv, hwd⟩ :=
        ih (cnt + 1) (i + 1)
          { st.driver with
            constraint_vals :=
              copyInto st.driver.constraint_vals (st.graph.consF st.graph.dvVals) }
          st.glob st.graph
          ((tr ++ [Ev.fetchObj, Ev.kernelCall, Ev.writeDV st.graph.dvVals])
            ++ [Ev.fetchCons])
          (by rw [hd5, hcnm]; simp [hiter])
          (by omega)
          (Or.inl (by rw [hd5, hcnm]; simp [hiter, hlt]))
          (by omega)
      refine ⟨hdone, ?_, ?_, ?_, ?_, ?_⟩
      · rw [hkc]
        simp [List.countP_append, List.countP_cons, List.countP_nil, isKernelCall]
        omega
      · rw [hfc]
        simp [List.countP_append, List.countP_cons, List.countP_nil, isFetchCons]
        omega
      · rw [hfo]
        simp [List.countP_append, List.countP_cons, List.countP_nil, isFetchObj]
        omega
      · rw [hdv]
        simp [List.countP_append, List.countP_cons, List.countP_nil, isFetchDV]
      · rw [hwd]
        simp [List.countP_append, List.countP_cons, List.countP_nil, isWriteDV]
        omega
    · have h1 : ¬(st.driver.cnmn1.info = 1) := by
        rw [hcnm]; simp [hiter, hlt]
      have h2 : ¬(st.driver.cnmn1.info = 2) := by
        rw [hcnm]; simp [hiter, hlt]
      rw [if_neg h1, if_neg h2]
      have hexit : ¬(st.driver.cnmn1.igoto ≠ 0 ∨ st.driver.first = true) := by
        have hig : st.driver.cnmn1.igoto = 0 := by
          rw [hcnm]; simp [hiter, hlt]
        have hfi : st.driver.first = false := by
          rw [hst]; exact stepResult_first _ _ _
        simp [hig, hfi]
      rw [executeLoop_exit (scriptKernel kmax) noStop f (i + 1) st.driver st.glob
        st.graph (tr ++ [Ev.fetchObj, Ev.kernelCall, Ev.writeDV st.graph.dvVals])
        hexit]
      have hz : kmax - cnt = 0 := by omega
      refine ⟨rfl, ?_, ?_, ?_, ?_, ?_⟩ <;>
        simp [hz, List.countP_append, List.countP_cons, List.countP_nil,
          isKernelCall, isFetchCons, isFetchObj, isFetchDV, isWriteDV]

/-- C3, amended: against a scripted kernel that answers "need constraint
values" exactly `kmax` times and then "complete", a first-run
`execute()` (with successful sizing) terminates normally after
`kmax + 1` kernel calls, fetches each constraint expression's value
exactly `kmax` times, fetches the objective and writes the
design-variable references back `kmax + 1` times each — but fetches the
design-variable values from the collaborator graph exactly ONCE, before
the loop, not `kmax + 1` times. -/
theorem c3_scripted_kernel_counts (kmax : Nat) (d : Driver) (glob : Global)
    (graph : Graph) (fuel : Nat) (d1 : Driver)
    (hfirst : d.first = true)
    (hcfg : _config_conmin d glob = .ok d1)
    (hfuel : kmax < fuel) :
    (execute (scriptKernel kmax) noStop fuel d glob graph).outcome = .done ∧
    (execute (scriptKernel kmax) noStop fuel d glob graph).trace.countP
      isKernelCall = kmax + 1 ∧
    (execute (scriptKernel kmax) noStop fuel d glob graph).trace.countP
      isFetchCons = kmax ∧
    (execute (scriptKernel kmax) noStop fuel d glob graph).trace.countP
      isFetchObj = kmax + 1 ∧
    (execute (scriptKernel kmax) noStop fuel d glob graph).trace.countP
      isFetchDV = 1 ∧
    (execute (scriptKernel kmax) noStop fuel d glob graph).trace.countP
      isWriteDV = kmax + 1 := by
  have hc : (if d.first then _config_conmin d glob else Except.ok d) = .ok d1 := by
    rw [hfirst]; simpa using hcfg
  rw [execute_def_ok (scriptKernel kmax) noStop fuel d glob graph d1 hc]
  obtain ⟨rfl, -, -, -, -⟩ := config_ok hcfg
  obtain ⟨hdone, hkc, hfc, hfo, hdv, hwd⟩ :=
    scriptLoop_counts kmax fuel 0 0
      { configBody d glob with
        cnmn1 := { (configBody d glob).cnmn1 with igoto := 0 }
        design_vals := copyInto (configBody d glob).design_vals graph.dvVals }
      glob graph [Ev.fetchDV]
      rfl (Nat.zero_le kmax) (Or.inr hfirst) (by omega)
  refine ⟨hdone, ?_, ?_, ?_, ?_, ?_⟩
  · rw [hkc]
    simp [List.countP_cons, List.countP_nil, isKernelCall]
  · rw [hfc]
    simp [List.countP_cons, List.countP_nil, isFetchCons]
  · rw [hfo]
    simp [List.countP_cons, List.countP_nil, isFetchObj]
  · rw [hdv]
    simp [List.countP_cons, List.countP_nil, isFetchDV]
  · rw [hwd]
    simp [List.countP_cons, List.countP_nil, isWriteDV]

/-- C3, counterexample to the claim as stated: with `k = 1` (the scripted
kernel asks for constraints once, then completes) the concrete run
fetches the constraint values once — but fetches the design-variable
values from the collaborator graph once as well, not `k + 1 = 2` times
as claimed: the read of `design_vars.refvalue` happens a single time,
before the resume loop. -/
theorem c3_counterexample :
    (execute (scriptKernel 1) noStop 9 c3driver glob0 graphC).trace.countP
      isFetchCons = 1 ∧
    (execute (scriptKernel 1) noStop 9 c3driver glob0 graphC).trace.countP
      isFetchDV = 1 ∧
    ¬((execute (scriptKernel 1) noStop 9 c3driver glob0 graphC).trace.countP
      isFetchDV = 1 + 1) := by
  refine ⟨by decide, by decide, by decide⟩

/-- C3 witness: the amended count theorem applied at `k = 2` on a
concrete configuration. -/
theorem c3_witness :
    c3driver.first = true ∧
    _config_conmin c3driver glob0 = .ok (configBody c3driver glob0) ∧
    (2 : Nat) < 9 ∧
    ((execute (scriptKernel 2) noStop 9 c3driver glob0 graphC).outcome = .done ∧
     (execute (scriptKernel 2) noStop 9 c3driver glob0 graphC).trace.countP
       isKernelCall = 2 + 1 ∧
     (execute (scriptKernel 2) noStop 9 c3driver glob0 graphC).trace.countP
       isFetchCons = 2 ∧
     (execute (scriptKernel 2) noStop 9 c3driver glob0 graphC).trace.countP
       isFetchObj = 2 + 1 ∧
     (execute (scriptKernel 2) noStop 9 c3driver glob0 graphC).trace.countP
       isFetchDV = 1 ∧
     (execute (scriptKernel 2) noStop 9 c3driver glob0 graphC).trace.countP
       isWriteDV = 2 + 1) :=
  ⟨rfl, rfl, by omega,
   c3_scripted_kernel_counts 2 c3driver glob0 graphC 9 (configBody c3driver glob0)
     rfl rfl (by omega)⟩

/-- The kernel input of the first loop iteration of a first-run
`execute()` whose sizing produced `d1`: `igoto` zeroed, `design_vals`
refreshed from the graph, then the per-iteration updates (`_first`
cleared, objective fetched) and the common blocks loaded from the
instance snapshot. -/
def firstInput (d1 : Driver) (graph : Graph) : KernelIn :=
  stepInput
    { d1 with
      cnmn1 := { d1.cnmn1 with igoto := 0 }
      design_vals := copyInto d1.design_vals graph.dvVals }
    graph

/-- C7: if the cooperative cancellation signal becomes set after the
first kernel call and before the second (polled `false` at loop
iteration 0, `true` at iteration 1), and the first kernel call answers
with a nonzero continuation code (so a second resume step is due) and
does not request gradients, then `execute()` ends with the `RunStopped`
outcome, performs exactly one kernel call, and leaves the
design-variable references holding exactly the values written back after
that first call — `design_vals[:-2]` of the kernel's first answer. -/
theorem c7_cancellation_between_resume_steps (k : Kernel) (d : Driver)
    (glob : Global) (graph : Graph) (fuel : Nat) (d1 : Driver)
    (hfirst : d.first = true)
    (hcfg : _config_conmin d glob = .ok d1)
    (hfuel : 2 ≤ fuel)
    (hig : (k (firstInput d1 graph)).glob.cnmn1.igoto ≠ 0)
    (hinfo : (k (firstInput d1 graph)).glob.cnmn1.info ≠ 2) :
    (execute k stopAfterFirst fuel d glob graph).outcome = .stopped ∧
    (execute k stopAfterFirst fuel d glob graph).trace.countP isKernelCall = 1 ∧
    (execute k stopAfterFirst fuel d glob graph).graph.dvVals =
      (k (firstInput d1 graph)).x.dropLast.dropLast := by
  have hc : (if d.first then _config_conmin d glob else Except.ok d) = .ok d1 := by
    rw [hfirst]; simpa using hcfg
  rw [execute_def_ok k stopAfterFirst fuel d glob graph d1 hc]
  obtain ⟨rfl, -, -, -, -⟩ := config_ok hcfg
  obtain ⟨f, rfl⟩ : ∃ f, fuel = f + 2 := ⟨fuel - 2, by omega⟩
  set d3 : Driver :=
    { configBody d glob with
      cnmn1 := { (configBody d glob).cnmn1 with igoto := 0 }
      design_vals := copyInto (configBody d glob).design_vals graph.dvVals }
    with hd3
  have hcond : d3.cnmn1.igoto ≠ 0 ∨ d3.first = true := Or.inr hfirst
  rw [executeLoop_step k stopAfterFirst (f + 1) 0 d3 glob graph [Ev.fetchDV]
    hcond rfl]
  have hig' : (stepResult k d3 graph).driver.cnmn1.igoto ≠ 0 := by
    rw [stepResult_cnmn1]; exact hig
  by_cases h1 : (stepResult k d3 graph).driver.cnmn1.info = 1
  · rw [if_pos h1]
    rw [executeLoop_stopped k stopAfterFirst f (0 + 1)
      { (stepResult k d3 graph).driver with
        constraint_vals :=
          copyInto (stepResult k d3 graph).driver.constraint_vals
            ((stepResult k d3 graph).graph.consF (stepResult k d3 graph).graph.dvVals) }
      _ _ _ (Or.inl hig') rfl]
    refine ⟨rfl, ?_, rfl⟩
    simp [List.countP_append, List.countP_cons, List.countP_nil, isKernelCall]
  · rw [if_neg h1]
    by_cases h2 : (stepResult k d3 graph).driver.cnmn1.info = 2
    · exact absurd h2 hinfo
    · rw [if_neg h2]
      rw [executeLoop_stopped k stopAfterFirst f (0 + 1) _ _ _ _ (Or.inl hig') rfl]
      refine ⟨rfl, ?_, rfl⟩
      simp [List.countP_append, List.countP_cons, List.countP_nil, isKernelCall]

/-- C7 witness: concrete cancellation after the first kernel call of a
scripted run. -/
theorem c7_witness :
    c3driver.first = true ∧
    _config_conmin c3driver glob0 = .ok (configBody c3driver glob0) ∧
    (scriptKernel 5 (firstInput (configBody c3driver glob0) graphC)).glob.cnmn1.igoto
      ≠ 0 ∧
    ((execute (scriptKernel 5) stopAfterFirst 4 c3driver glob0 graphC).outcome
        = .stopped ∧
     (execute (scriptKernel 5) stopAfterFirst 4 c3driver glob0 graphC).trace.countP
        isKernelCall = 1 ∧
     (execute (scriptKernel 5) stopAfterFirst 4 c3driver glob0 graphC).graph.dvVals
        = (scriptKernel 5 (firstInput (configBody c3driver glob0)
            graphC)).x.dropLast.dropLast) :=
  ⟨rfl, rfl, by decide,
   c7_cancellation_between_resume_steps (scriptKernel 5) c3driver glob0 graphC 4
     (configBody c3driver glob0) rfl rfl (by omega) (by decide) (by decide)⟩
